import Mathlib

/-!
Verification of the quiz-generation pipeline of the trivia tool.

Strings are modelled as `List Char`.  Python primitives used by the source
are embedded one by one:

* `pyStrip`    models `str.strip()` (here only ASCII whitespace matters),
* `splitNl`    models `str.split('\n')`,
* `removeAll`  models `str.replace(old, "")` (every occurrence removed),
* `qMatch`     models `re.match(r"^\d+\.\s*", line)`,
* `qSub`       models `re.sub(r"^\d+\.\s*", "", line)` on a matching line,
* `optMatch`   models `re.match(r"^[A-D]\)\s*", line)`.

The parse-and-persist pipeline of `generate_quiz` (app.py), the grading
route `submit_quiz` (app.py) and `read_file_content` (ai_service.py) are
then translated directly.
-/

namespace Trivia

/-- Model of Python `str.strip()`: remove leading and trailing whitespace. -/
def pyStrip (l : List Char) : List Char :=
  ((l.dropWhile Char.isWhitespace).reverse.dropWhile Char.isWhitespace).reverse

/-- Model of Python `str.split('\n')` (keeps empty pieces, never empty). -/
def splitNl : List Char → List (List Char)
  | [] => [[]]
  | c :: rest =>
    match splitNl rest with
    | [] => [[]]
    | l :: ls => if c = '\n' then [] :: l :: ls else (c :: l) :: ls

/-- Model of Python `str.lower()` on our character lists. -/
def pyLower (l : List Char) : List Char := l.map Char.toLower

/-- Worker for `removeAll`; the fuel argument only forces structural
recursion and is always at least the length of the scanned list, so the
middle arm is never reached. -/
def removeAllAux (pat : List Char) : Nat → List Char → List Char
  | _, [] => []
  | 0, l => l
  | fuel + 1, c :: rest =>
    if pat ≠ [] ∧ pat.isPrefixOf (c :: rest) = true then
      removeAllAux pat fuel ((c :: rest).drop pat.length)
    else
      c :: removeAllAux pat fuel rest

/-- Model of Python `s.replace(pat, "")`: every non-overlapping occurrence
of `pat` is removed, scanning left to right. -/
def removeAll (pat : List Char) (l : List Char) : List Char :=
  removeAllAux pat l.length l

/-- Model of `re.match(r"^\d+\.\s*", line)`: one or more digits then a dot. -/
def qMatch (l : List Char) : Bool :=
  decide (l.takeWhile Char.isDigit ≠ []) &&
    decide ((l.dropWhile Char.isDigit).head? = some '.')

/-- Model of `re.sub(r"^\d+\.\s*", "", line)` on a line that matches:
drop the leading digits, the dot, and the whitespace after it. -/
def qSub (l : List Char) : List Char :=
  ((l.dropWhile Char.isDigit).drop 1).dropWhile Char.isWhitespace

/-- Model of `re.match(r"^[A-D]\)\s*", line)`. -/
def optMatch (l : List Char) : Bool :=
  match l with
  | a :: b :: _ => (a == 'A' || a == 'B' || a == 'C' || a == 'D') && b == ')'
  | _ => false

/-- The literal marker `"Correct Answer:"`. -/
def ansMarker : List Char := "Correct Answer:".data

/-- The literal marker `"Explanation:"`. -/
def expMarker : List Char := "Explanation:".data

/-- A candidate question record built by the parsing loop of
`generate_quiz` (the `current_question` dictionary). -/
structure QRecord where
  question_text : List Char
  options : List (List Char)
  correct_answer : List Char
  explanation : List Char
deriving DecidableEq, Repr

/-- The running state of the parsing loop: the accumulated
`structured_questions` list and the open `current_question` (`none`
models the empty dictionary, which is falsy in Python). -/
structure ParseState where
  acc : List QRecord
  cur : Option QRecord
deriving DecidableEq, Repr

/-- The fresh record created when a numbered question line is found
(`line` is the already-stripped line). -/
def newRecord (line : List Char) : QRecord :=
  ⟨pyStrip (qSub line), [], [], []⟩

/-- One iteration of the `for line in lines` loop of `generate_quiz`
(app.py lines 135-155), translated branch by branch. -/
def step (st : ParseState) (raw : List Char) : ParseState :=
  let line := pyStrip raw
  if line = [] then st
  else if qMatch line then
    { acc := st.acc ++ st.cur.toList, cur := some (newRecord line) }
  else
    match st.cur with
    | none => st
    | some c =>
      if optMatch line then
        let c2 := { c with options := c.options ++ [line] }
        { st with cur := some c2 }
      else if ansMarker.isPrefixOf line then
        let c2 := { c with correct_answer := pyStrip (removeAll ansMarker line) }
        { st with cur := some c2 }
      else if expMarker.isPrefixOf line then
        let c2 := { c with explanation := pyStrip (removeAll expMarker line) }
        { st with cur := some c2 }
      else st

/-- The flush after the loop (`if current_question: ...append`). -/
def finalize (st : ParseState) : List QRecord :=
  st.acc ++ st.cur.toList

/-- The whole parsing phase of `generate_quiz`: strip the completion,
split it on newlines, run the loop, flush the open record. -/
def parseCompletion (raw : List Char) : List QRecord :=
  finalize ((splitNl (pyStrip raw)).foldl step ⟨[], none⟩)

/-- A persisted `Question` row (app.py lines 29-38); the database id is
attached separately where grading needs it. -/
structure Question where
  question_text : List Char
  option_a : List Char
  option_b : List Char
  option_c : List Char
  option_d : List Char
  correct_answer : List Char
  explanation : List Char
deriving DecidableEq, Repr

/-- The validation test of app.py line 161:
`len(options) == 4 and question_text and correct_answer and explanation`. -/
def validQ (r : QRecord) : Bool :=
  r.options.length == 4 && !r.question_text.isEmpty &&
    !r.correct_answer.isEmpty && !r.explanation.isEmpty

/-- Persistence of one candidate record (app.py lines 160-174): a valid
record becomes a `Question` row, an invalid one is skipped. -/
def persistRecord (r : QRecord) : Option Question :=
  if validQ r then
    match r.options with
    | [a, b, c, d] =>
      some ⟨r.question_text, a, b, c, d, r.correct_answer, r.explanation⟩
    | _ => none
  else none

/-- The `Quiz` row created by `generate_quiz` (app.py line 123). -/
structure QuizRec where
  num_questions : Nat
  time_limit : Nat
deriving DecidableEq, Repr

/-- The outcome of the parse-and-persist phase of `generate_quiz`. -/
structure GenResult where
  quiz : QuizRec
  questions : List Question
deriving DecidableEq, Repr

/-- The parse-and-persist pipeline of `generate_quiz` (app.py lines
122-176): a quiz row is always created, then every parsed candidate
that passes validation is persisted, in order. -/
def generate_quiz (numQuestions timeLimit : Nat) (generatedText : List Char) :
    GenResult :=
  ⟨⟨numQuestions, timeLimit⟩, (parseCompletion generatedText).filterMap persistRecord⟩

/-! ### Grading (`submit_quiz`, app.py lines 229-279) -/

/-- A `Question` row together with its database primary key. -/
structure StoredQuestion where
  id : Nat
  q : Question
deriving DecidableEq, Repr

/-- The `user_answers` JSON object: a mapping from string keys to answer
strings (`dict.get` returns `None` for an absent key). -/
def UserAnswers : Type := List Char → Option (List Char)

/-- The string key used for the lookup: `str(question.id)`. -/
def natKey (n : Nat) : List Char := (Nat.repr n).data

/-- One entry of `results_breakdown` (app.py lines 261-268). -/
structure BreakdownEntry where
  question_id : Nat
  question_text : List Char
  user_answer : Option (List Char)
  correct_answer : List Char
  is_correct : Bool
  options : List (List Char)
deriving DecidableEq, Repr

/-- The breakdown entry built for one question inside the loop; the
comparison is exact string equality, and an absent answer (`None`)
never equals the stored string. -/
def mkEntry (ua : UserAnswers) (sq : StoredQuestion) : BreakdownEntry :=
  let a := ua (natKey sq.id)
  { question_id := sq.id
    question_text := sq.q.question_text
    user_answer := a
    correct_answer := sq.q.correct_answer
    is_correct := decide (a = some sq.q.correct_answer)
    options := [sq.q.option_a, sq.q.option_b, sq.q.option_c, sq.q.option_d] }

/-- One iteration of the grading loop (app.py lines 252-268): bump the
integer score and the running percentage on a correct answer, append
the breakdown entry.  The state is `(score, percentage, breakdown)`. -/
def gradeStep (spq : Rat) (ua : UserAnswers)
    (st : Nat × Rat × List BreakdownEntry) (sq : StoredQuestion) :
    Nat × Rat × List BreakdownEntry :=
  let e := mkEntry ua sq
  if e.is_correct then (st.1 + 1, st.2.1 + spq, st.2.2 ++ [e])
  else (st.1, st.2.1, st.2.2 ++ [e])

/-- Python `round(x, 2)`, modelled over exact rationals. -/
def round2 (x : Rat) : Rat := ((round (x * 100) : Int) : Rat) / 100

/-- The grading result assembled by `submit_quiz` on its main path. -/
structure GradeOutcome where
  score : Nat
  total_questions : Nat
  percentage_score : Rat
  results_breakdown : List BreakdownEntry
deriving Repr

/-- The grading computation of `submit_quiz` for a quiz with at least one
question (app.py lines 242-271): `score_per_question = 100 / total`,
loop over the stored questions in order, round the percentage. -/
def gradeQuiz (qs : List StoredQuestion) (ua : UserAnswers) : GradeOutcome :=
  let total := qs.length
  let spq : Rat := 100 / total
  let r := qs.foldl (gradeStep spq ua) (0, 0, [])
  ⟨r.1, total, round2 r.2.1, r.2.2⟩

/-! ### The `submit_quiz` route, with its session side effect -/

/-- A JSON value, as produced by `jsonify`. -/
inductive JVal where
  | null : JVal
  | num : Rat → JVal
  | str : List Char → JVal
  | bool : Bool → JVal
  | arr : List JVal → JVal
  | obj : List (List Char × JVal) → JVal

/-- The keys of a JSON object (used to state which fields a response has). -/
def objKeys : JVal → List (List Char)
  | .obj fields => fields.map Prod.fst
  | _ => []

/-- The Flask session, a string-keyed mapping holding recorded answers. -/
def Session : Type := List (List Char × UserAnswers)

/-- `session[key] = value`. -/
def sessionSet (s : Session) (k : List Char) (v : UserAnswers) : Session :=
  (k, v) :: s

/-- Session lookup (first binding wins, as the most recent write is in
front). -/
def sessionLookup : Session → List Char → Option UserAnswers
  | [], _ => none
  | (k2, v) :: rest, k => if k2 = k then some v else sessionLookup rest k

/-- The session key `f'quiz_{quiz_id}_user_answers'`. -/
def answersKey (quizId : Nat) : List Char :=
  "quiz_".data ++ (Nat.repr quizId).data ++ "_user_answers".data

/-- What the `submit_quiz` handler produces: the updated session, the
HTTP status, and the JSON body. -/
structure SubmitOutcome where
  sessionOut : Session
  status : Nat
  body : JVal

/-- JSON rendering of one breakdown entry (an absent answer becomes
JSON `null`). -/
def entryToJson (e : BreakdownEntry) : JVal :=
  .obj [("question_id".data, .num e.question_id),
        ("question_text".data, .str e.question_text),
        ("user_answer".data,
          match e.user_answer with
          | none => .null
          | some a => .str a),
        ("correct_answer".data, .str e.correct_answer),
        ("is_correct".data, .bool e.is_correct),
        ("options".data, .arr (e.options.map JVal.str))]

/-- The `submit_quiz` handler (app.py lines 229-279), in source order:
record the submitted answers in the session first, then look the quiz
up (404 if missing), then the zero-question early return, then the
grading loop and the full five-field response. -/
def submit_quiz (store : Nat → Option (List StoredQuestion)) (sess : Session)
    (quizId : Nat) (ua : UserAnswers) : SubmitOutcome :=
  let sess2 := sessionSet sess (answersKey quizId) ua
  match store quizId with
  | none => ⟨sess2, 404, .obj [("error".data, .str "Quiz not found".data)]⟩
  | some qs =>
    if qs.length = 0 then
      ⟨sess2, 200, .obj [("score".data, .num 0),
                         ("total_questions".data, .num 0),
                         ("percentage_score".data, .num 0)]⟩
    else
      let g := gradeQuiz qs ua
      ⟨sess2, 200,
        .obj [("quiz_id".data, .num quizId),
              ("score".data, .num g.score),
              ("total_questions".data, .num g.total_questions),
              ("percentage_score".data, .num g.percentage_score),
              ("results_breakdown".data,
                .arr (g.results_breakdown.map entryToJson))]⟩

/-! ### `read_file_content` (ai_service.py lines 10-20) -/

/-- The file system, abstracted: the literal UTF-8 text of a path, and
the paragraph texts the rich-text library reports for a path. -/
structure FileSys where
  textContent : List Char → List Char
  paragraphs : List Char → List (List Char)

/-- The characters after the last dot: `filepath.rsplit('.', 1)[1]`,
`none` when the path has no dot (where Python raises `IndexError`). -/
def afterLastDot : List Char → Option (List Char)
  | [] => none
  | c :: rest =>
    match afterLastDot rest with
    | some e => some e
    | none => if c = '.' then some rest else none

/-- `read_file_content` (ai_service.py): dispatch on the lower-cased
extension; `none` models the `IndexError` raised on a dot-free path. -/
def read_file_content (fs : FileSys) (filepath : List Char) :
    Option (List Char) :=
  match afterLastDot filepath with
  | none => none
  | some e =>
    let extension := pyLower e
    if extension = "txt".data ∨ extension = "md".data then
      some (fs.textContent filepath)
    else if extension = "docx".data then
      some ((fs.paragraphs filepath).flatMap (fun p => p ++ ['\n']))
    else
      some []

/-! ### Well-formed question blocks (for the parser round-trip claims) -/

/-- A candidate question block of a completion: the raw numbered question
line, the four raw option lines, the raw correct-answer line, and the
raw explanation line. -/
structure Block where
  qline : List Char
  oA : List Char
  oB : List Char
  oC : List Char
  oD : List Char
  ansLine : List Char
  expLine : List Char
deriving DecidableEq, Repr

/-- The lines of a block, in the order they appear in the completion. -/
def Block.render (b : Block) : List (List Char) :=
  [b.qline, b.oA, b.oB, b.oC, b.oD, b.ansLine, b.expLine]

/-- The lines of a list of blocks, concatenated. -/
def blocksLines : List Block → List (List Char)
  | [] => []
  | b :: bs => b.render ++ blocksLines bs

/-- An option line labeled with the letter `c`: after stripping, it
starts with `c` followed by a closing parenthesis. -/
def optLine (c : Char) (l : List Char) : Bool :=
  match pyStrip l with
  | a :: b :: _ => a == c && b == ')'
  | _ => false

/-- Well-formedness of a block: the question line is numbered, the four
option lines are labeled `A)` through `D)`, the last two lines carry the
`Correct Answer:` and `Explanation:` markers, and the extracted question
text, answer and explanation are non-empty. -/
def Block.WF (b : Block) : Bool :=
  qMatch (pyStrip b.qline) &&
  optLine 'A' b.oA && optLine 'B' b.oB && optLine 'C' b.oC && optLine 'D' b.oD &&
  ansMarker.isPrefixOf (pyStrip b.ansLine) &&
  expMarker.isPrefixOf (pyStrip b.expLine) &&
  !(pyStrip (qSub (pyStrip b.qline))).isEmpty &&
  !(pyStrip (removeAll ansMarker (pyStrip b.ansLine))).isEmpty &&
  !(pyStrip (removeAll expMarker (pyStrip b.expLine))).isEmpty

/-- The candidate record the parser builds from one well-formed block. -/
def Block.toRecord (b : Block) : QRecord :=
  { question_text := pyStrip (qSub (pyStrip b.qline))
    options := [pyStrip b.oA, pyStrip b.oB, pyStrip b.oC, pyStrip b.oD]
    correct_answer := pyStrip (removeAll ansMarker (pyStrip b.ansLine))
    explanation := pyStrip (removeAll expMarker (pyStrip b.expLine)) }

/-- The `Question` row the pipeline persists for one well-formed block. -/
def Block.toQuestion (b : Block) : Question :=
  { question_text := pyStrip (qSub (pyStrip b.qline))
    option_a := pyStrip b.oA
    option_b := pyStrip b.oB
    option_c := pyStrip b.oC
    option_d := pyStrip b.oD
    correct_answer := pyStrip (removeAll ansMarker (pyStrip b.ansLine))
    explanation := pyStrip (removeAll expMarker (pyStrip b.expLine)) }

/-- The `Question` row the claim's wording predicts for one block: the
correct answer and explanation are the verbatim remainders of their
lines after the marker, trimmed. -/
def Block.claimQuestion (b : Block) : Question :=
  { question_text := pyStrip (qSub (pyStrip b.qline))
    option_a := pyStrip b.oA
    option_b := pyStrip b.oB
    option_c := pyStrip b.oC
    option_d := pyStrip b.oD
    correct_answer := pyStrip ((pyStrip b.ansLine).drop ansMarker.length)
    explanation := pyStrip ((pyStrip b.expLine).drop expMarker.length) }

/-- A line the loop does not skip: stripping it leaves something. -/
def nonblank (l : List Char) : Bool := !(pyStrip l).isEmpty

/-! ### Concrete inputs used by the witnesses and counterexamples -/

/-- A well-formed block whose correct-answer content itself contains the
literal marker `Correct Answer:`. -/
def c1CexBlock : Block :=
  ⟨"1. Tricky?".data, "A) x".data, "B) y".data, "C) z".data, "D) w".data,
   "Correct Answer: see Correct Answer: note".data, "Explanation: e".data⟩

/-- The completion consisting of exactly the lines of `c1CexBlock`. -/
def c1CexRaw : List Char :=
  ("1. Tricky?\nA) x\nB) y\nC) z\nD) w\n" ++
   "Correct Answer: see Correct Answer: note\nExplanation: e").data

/-- First block of the two-block witness completion. -/
def c1WBlock1 : Block :=
  ⟨"1. What is 2+2?".data, "A) 3".data, "B) 4".data, "C) 5".data, "D) 6".data,
   "Correct Answer: B) 4".data, "Explanation: arithmetic".data⟩

/-- Second block of the two-block witness completion. -/
def c1WBlock2 : Block :=
  ⟨"2. Capital of France?".data, "A) Rome".data, "B) Berlin".data,
   "C) Paris".data, "D) Madrid".data,
   "Correct Answer: C) Paris".data, "Explanation: geography".data⟩

/-- A two-block completion, blocks separated by a blank line. -/
def c1WRaw : List Char :=
  ("1. What is 2+2?\nA) 3\nB) 4\nC) 5\nD) 6\n" ++
   "Correct Answer: B) 4\nExplanation: arithmetic\n\n" ++
   "2. Capital of France?\nA) Rome\nB) Berlin\nC) Paris\nD) Madrid\n" ++
   "Correct Answer: C) Paris\nExplanation: geography").data

/-- A completion whose correct-answer line names none of the options. -/
def c2Raw : List Char :=
  ("1. Q?\nA) x\nB) y\nC) z\nD) w\nCorrect Answer: nope\nExplanation: e").data

/-- The row `generate_quiz` persists for `c2Raw`. -/
def c2Question : Question :=
  ⟨"Q?".data, "A) x".data, "B) y".data, "C) z".data, "D) w".data,
   "nope".data, "e".data⟩

/-- A well-formed one-block completion. -/
def c3Raw : List Char :=
  ("1. Q?\nA) x\nB) y\nC) z\nD) w\nCorrect Answer: B) y\nExplanation: e").data

/-- The row `generate_quiz` persists for `c3Raw`. -/
def c3Question : Question :=
  ⟨"Q?".data, "A) x".data, "B) y".data, "C) z".data, "D) w".data,
   "B) y".data, "e".data⟩

/-- A completion whose single block has only three option lines. -/
def c5Raw : List Char :=
  ("1. Q?\nA) x\nB) y\nC) z\nCorrect Answer: A) x\nExplanation: e").data

/-- The (invalid) candidate record parsed from `c5Raw`. -/
def c5Record : QRecord :=
  ⟨"Q?".data, ["A) x".data, "B) y".data, "C) z".data], "A) x".data, "e".data⟩

/-- The correctness test applied to one stored question: the answer
looked up under `str(id)` is string-equal to the stored correct answer. -/
def answeredCorrectly (ua : UserAnswers) (sq : StoredQuestion) : Bool :=
  decide (ua (natKey sq.id) = some sq.q.correct_answer)

/-- Four stored questions used by the grading witness. -/
def c4Questions : List StoredQuestion :=
  [⟨1, ⟨"Q1".data, "A) a".data, "B) b".data, "C) c".data, "D) d".data,
        "A) a".data, "e1".data⟩⟩,
   ⟨2, ⟨"Q2".data, "A) a".data, "B) b".data, "C) c".data, "D) d".data,
        "B) b".data, "e2".data⟩⟩,
   ⟨3, ⟨"Q3".data, "A) a".data, "B) b".data, "C) c".data, "D) d".data,
        "C) c".data, "e3".data⟩⟩,
   ⟨4, ⟨"Q4".data, "A) a".data, "B) b".data, "C) c".data, "D) d".data,
        "D) d".data, "e4".data⟩⟩]

/-- A submission matching three of the four correct answers (question 4
is left unanswered). -/
def c4Answers : UserAnswers := fun k =>
  if k = "1".data then some "A) a".data
  else if k = "2".data then some "B) b".data
  else if k = "3".data then some "C) c".data
  else none

/-- A store holding one quiz (id 7) with no questions. -/
def c6Store : Nat → Option (List StoredQuestion) :=
  fun n => if n = 7 then some [] else none

/-- A store holding one quiz (id 1) with no questions. -/
def c7Store : Nat → Option (List StoredQuestion) :=
  fun n => if n = 1 then some [] else none

/-- A stored question used by the response-shape witness. -/
def c7Q : StoredQuestion :=
  ⟨1, ⟨"Q".data, "A) a".data, "B) b".data, "C) c".data, "D) d".data,
       "A) a".data, "e".data⟩⟩

/-- A store holding one quiz (id 2) with a single question. -/
def c7QStore : Nat → Option (List StoredQuestion) :=
  fun n => if n = 2 then some [c7Q] else none

/-- An empty store: no quiz exists. -/
def c10Store : Nat → Option (List StoredQuestion) := fun _ => none

/-- A concrete submission used by the session-recording witness. -/
def c10Answers : UserAnswers := fun _ => some "A".data

/-- A concrete file system used by the reader witnesses. -/
def c8Fs : FileSys :=
  ⟨fun _ => "hello".data, fun _ => ["p1".data, "p2".data]⟩

/-- A concrete file system used by the dot-precondition witness. -/
def c9Fs : FileSys :=
  ⟨fun _ => "world".data, fun _ => ["q".data]⟩

/-- All option strings collected in a record are non-empty. -/
def optsNonempty (r : QRecord) : Prop := ∀ o ∈ r.options, o ≠ []

/-- The loop invariant: every closed record and the open record (if any)
carry only non-empty option strings. -/
def stateInv (st : ParseState) : Prop :=
  (∀ r ∈ st.acc, optsNonempty r) ∧ ∀ c, st.cur = some c → optsNonempty c

/-! ### Parser lemmas -/

theorem qMatch_ne_nil {l : List Char} (h : qMatch l = true) : l ≠ [] := by
  intro hnil
  subst hnil
  simp [qMatch] at h

theorem qMatch_false_of_head {a : Char} {t : List Char}
    (ha : a.isDigit = false) : qMatch (a :: t) = false := by
  simp [qMatch, List.takeWhile_cons, ha]

theorem step_blank (st : ParseState) {l : List Char}
    (h : pyStrip l = []) : step st l = st := by
  simp [step, h]

theorem step_question (st : ParseState) {l : List Char}
    (h : qMatch (pyStrip l) = true) :
    step st l = ⟨st.acc ++ st.cur.toList, some (newRecord (pyStrip l))⟩ := by
  have hne : pyStrip l ≠ [] := qMatch_ne_nil h
  simp [step, hne, h]

theorem step_option (st : ParseState) {c : QRecord} {l : List Char}
    (hcur : st.cur = some c)
    (hne : pyStrip l ≠ []) (hq : qMatch (pyStrip l) = false)
    (h : optMatch (pyStrip l) = true) :
    step st l = ⟨st.acc, some { c with options := c.options ++ [pyStrip l] }⟩ := by
  simp [step, hne, hq, h, hcur]

theorem step_answer (st : ParseState) {c : QRecord} {l : List Char}
    (hcur : st.cur = some c)
    (hne : pyStrip l ≠ []) (hq : qMatch (pyStrip l) = false)
    (ho : optMatch (pyStrip l) = false)
    (h : ansMarker.isPrefixOf (pyStrip l) = true) :
    step st l = ⟨st.acc, some
      { c with correct_answer := pyStrip (removeAll ansMarker (pyStrip l)) }⟩ := by
  simp [step, hne, hq, ho, h, hcur]

theorem step_explanation (st : ParseState) {c : QRecord} {l : List Char}
    (hcur : st.cur = some c)
    (hne : pyStrip l ≠ []) (hq : qMatch (pyStrip l) = false)
    (ho : optMatch (pyStrip l) = false)
    (ha : ansMarker.isPrefixOf (pyStrip l) = false)
    (h : expMarker.isPrefixOf (pyStrip l) = true) :
    step st l = ⟨st.acc, some
      { c with explanation := pyStrip (removeAll expMarker (pyStrip l)) }⟩ := by
  simp [step, hne, hq, ho, ha, h, hcur]

theorem optLine_props {c : Char} {l : List Char}
    (hc : (c == 'A' || c == 'B' || c == 'C' || c == 'D') = true)
    (h : optLine c l = true) :
    pyStrip l ≠ [] ∧ qMatch (pyStrip l) = false ∧ optMatch (pyStrip l) = true := by
  unfold optLine at h
  rcases hs : pyStrip l with _ | ⟨a, _ | ⟨b, t⟩⟩
  · rw [hs] at h; simp at h
  · rw [hs] at h; simp at h
  · rw [hs] at h
    simp only [Bool.and_eq_true, beq_iff_eq] at h
    obtain ⟨hac, hb⟩ := h
    subst hac; subst hb
    simp only [Bool.or_eq_true, beq_iff_eq] at hc
    refine ⟨by simp, ?_, ?_⟩
    · exact qMatch_false_of_head
        (by rcases hc with ((rfl | rfl) | rfl) | rfl <;> decide)
    · simp only [optMatch, Bool.and_eq_true, Bool.or_eq_true, beq_iff_eq]
      refine ⟨?_, trivial⟩
      rcases hc with ((rfl | rfl) | rfl) | rfl <;> simp

theorem ans_marker_props {l : List Char}
    (h : ansMarker.isPrefixOf l = true) :
    l ≠ [] ∧ qMatch l = false ∧ optMatch l = false := by
  rw [List.isPrefixOf_iff_prefix] at h
  obtain ⟨t, ht⟩ := h
  subst ht
  exact ⟨by simp [ansMarker], by rfl, by rfl⟩

theorem exp_marker_props {l : List Char}
    (h : expMarker.isPrefixOf l = true) :
    l ≠ [] ∧ qMatch l = false ∧ optMatch l = false ∧
      ansMarker.isPrefixOf l = false := by
  rw [List.isPrefixOf_iff_prefix] at h
  obtain ⟨t, ht⟩ := h
  subst ht
  exact ⟨by simp [expMarker], by rfl, by rfl, by rfl⟩

/-- Splitting a well-formedness proof into its ten components. -/
theorem Block.WF_components {b : Block} (hb : b.WF = true) :
    qMatch (pyStrip b.qline) = true ∧
    optLine 'A' b.oA = true ∧ optLine 'B' b.oB = true ∧
    optLine 'C' b.oC = true ∧ optLine 'D' b.oD = true ∧
    ansMarker.isPrefixOf (pyStrip b.ansLine) = true ∧
    expMarker.isPrefixOf (pyStrip b.expLine) = true ∧
    (pyStrip (qSub (pyStrip b.qline))).isEmpty = false ∧
    (pyStrip (removeAll ansMarker (pyStrip b.ansLine))).isEmpty = false ∧
    (pyStrip (removeAll expMarker (pyStrip b.expLine))).isEmpty = false := by
  unfold Block.WF at hb
  simp only [Bool.and_eq_true, Bool.not_eq_true'] at hb
  tauto

/-- Running the loop over the seven lines of a well-formed block closes
the previously open record (if any) and leaves the block's record open. -/
theorem foldl_step_block (b : Block) (hb : b.WF = true) (st : ParseState) :
    List.foldl step st b.render = ⟨st.acc ++ st.cur.toList, some b.toRecord⟩ := by
  obtain ⟨hq, hA, hB, hC, hD, hans, hexp, -, -, -⟩ := Block.WF_components hb
  obtain ⟨hAne, hAq, hAo⟩ := optLine_props (by decide) hA
  obtain ⟨hBne, hBq, hBo⟩ := optLine_props (by decide) hB
  obtain ⟨hCne, hCq, hCo⟩ := optLine_props (by decide) hC
  obtain ⟨hDne, hDq, hDo⟩ := optLine_props (by decide) hD
  obtain ⟨hansne, hansq, hanso⟩ := ans_marker_props hans
  obtain ⟨hexpne, hexpq, hexpo, hexpa⟩ := exp_marker_props hexp
  show List.foldl step st [b.qline, b.oA, b.oB, b.oC, b.oD, b.ansLine, b.expLine] = _
  simp only [List.foldl_cons, List.foldl_nil]
  rw [step_question st hq]
  rw [step_option _ rfl hAne hAq hAo]
  rw [step_option _ rfl hBne hBq hBo]
  rw [step_option _ rfl hCne hCq hCo]
  rw [step_option _ rfl hDne hDq hDo]
  rw [step_answer _ rfl hansne hansq hanso hans]
  rw [step_explanation _ rfl hexpne hexpq hexpo hexpa hexp]
  rfl

/-- Running the loop over the lines of a list of well-formed blocks. -/
theorem foldl_step_blocks (blocks : List Block)
    (hwf : ∀ b ∈ blocks, b.WF = true) (st : ParseState) :
    finalize (List.foldl step st (blocksLines blocks)) =
      st.acc ++ st.cur.toList ++ blocks.map Block.toRecord := by
  induction blocks generalizing st with
  | nil => simp [blocksLines, finalize]
  | cons b bs ih =>
    show finalize (List.foldl step st (b.render ++ blocksLines bs)) = _
    rw [List.foldl_append, foldl_step_block b (hwf b (by simp)) st,
      ih (fun x hx => hwf x (by simp [hx]))]
    simp

/-- Blank lines are skipped by the loop, so folding over the raw line
list is folding over its non-blank lines. -/
theorem foldl_step_filter (L : List (List Char)) (st : ParseState) :
    List.foldl step st L = List.foldl step st (L.filter nonblank) := by
  induction L generalizing st with
  | nil => rfl
  | cons l L ih =>
    by_cases h : nonblank l = true
    · rw [List.filter_cons_of_pos h]
      simp only [List.foldl_cons]
      exact ih (step st l)
    · have hb : pyStrip l = [] := by
        simpa [nonblank, List.isEmpty_iff] using h
      rw [List.filter_cons_of_neg (by simpa using h)]
      simp only [List.foldl_cons, step_blank st hb]
      exact ih st

/-- Parsing a completion whose non-blank lines are exactly the lines of
a list of well-formed blocks yields exactly those blocks' records. -/
theorem parseCompletion_blocks (raw : List Char) (blocks : List Block)
    (hwf : ∀ b ∈ blocks, b.WF = true)
    (hl : (splitNl (pyStrip raw)).filter nonblank = blocksLines blocks) :
    parseCompletion raw = blocks.map Block.toRecord := by
  unfold parseCompletion
  rw [foldl_step_filter, hl, foldl_step_blocks blocks hwf]
  rfl

/-- The record of a well-formed block passes validation and is persisted
as the expected `Question` row. -/
theorem persistRecord_toRecord (b : Block) (hb : b.WF = true) :
    persistRecord b.toRecord = some b.toQuestion := by
  obtain ⟨-, -, -, -, -, -, -, hqne, hansne, hexpne⟩ := Block.WF_components hb
  have hv : validQ b.toRecord = true := by
    simp [validQ, Block.toRecord, hqne, hansne, hexpne]
  unfold persistRecord
  simp only [hv]
  rfl

/-- `filterMap` of a function that succeeds everywhere is a `map`. -/
theorem filterMap_all_some {α β : Type} (f : α → Option β) (g : α → β)
    (l : List α) (h : ∀ x ∈ l, f x = some (g x)) :
    l.filterMap f = l.map g := by
  induction l with
  | nil => rfl
  | cons x xs ih =>
    rw [List.filterMap_cons, h x (by simp), List.map_cons,
      ih (fun y hy => h y (by simp [hy]))]

/-! ### Claim C1 -/

/-- C1 (amended): a completion whose non-blank lines are exactly the lines
of `N` well-formed question blocks is parsed and persisted by
`generate_quiz` into exactly `N` question rows, in input order; question
text and the four option lines are kept verbatim after trimming, while
the correct answer and the explanation are the content of their lines
with every occurrence of the `Correct Answer:` / `Explanation:` marker
removed, then trimmed (which is the verbatim trimmed remainder whenever
that remainder does not itself contain the marker). -/
theorem c1_pipeline_wellformed (numQ timeLim : Nat) (raw : List Char)
    (blocks : List Block)
    (hwf : ∀ b ∈ blocks, b.WF = true)
    (hl : (splitNl (pyStrip raw)).filter nonblank = blocksLines blocks) :
    (generate_quiz numQ timeLim raw).questions = blocks.map Block.toQuestion := by
  show (parseCompletion raw).filterMap persistRecord = _
  rw [parseCompletion_blocks raw blocks hwf hl, List.filterMap_map]
  exact filterMap_all_some _ Block.toQuestion blocks
    (fun b hb => persistRecord_toRecord b (hwf b hb))

set_option maxRecDepth 8192 in
/-- Witness for C1: the two-block completion is parsed into its two rows. -/
theorem c1_pipeline_wellformed_witness :
    (∀ b ∈ [c1WBlock1, c1WBlock2], b.WF = true) ∧
    (splitNl (pyStrip c1WRaw)).filter nonblank =
      blocksLines [c1WBlock1, c1WBlock2] ∧
    (generate_quiz 2 5 c1WRaw).questions =
      [c1WBlock1, c1WBlock2].map Block.toQuestion :=
  ⟨by decide, by decide,
    c1_pipeline_wellformed 2 5 c1WRaw [c1WBlock1, c1WBlock2]
      (by decide) (by decide)⟩

set_option maxRecDepth 8192 in
/-- Counterexample to C1 as stated: for a well-formed one-block
completion whose correct-answer content contains the marker text, the
persisted row is not the claimed verbatim one — `str.replace` removes
every occurrence of `"Correct Answer:"`, not only the leading one. -/
theorem c1_verbatim_counterexample :
    c1CexBlock.WF = true ∧
    (splitNl (pyStrip c1CexRaw)).filter nonblank = blocksLines [c1CexBlock] ∧
    (generate_quiz 1 5 c1CexRaw).questions ≠
      [c1CexBlock].map Block.claimQuestion := by
  refine ⟨by decide, by decide, by decide⟩

/-! ### The collected options of a parsed record are never empty -/

theorem step_none (st : ParseState) {l : List Char}
    (hcur : st.cur = none) (hne : pyStrip l ≠ [])
    (hq : qMatch (pyStrip l) = false) :
    step st l = st := by
  simp [step, hne, hq, hcur]

theorem step_other (st : ParseState) {c : QRecord} {l : List Char}
    (hcur : st.cur = some c) (hne : pyStrip l ≠ [])
    (hq : qMatch (pyStrip l) = false) (ho : optMatch (pyStrip l) = false)
    (ha : ansMarker.isPrefixOf (pyStrip l) = false)
    (hx : expMarker.isPrefixOf (pyStrip l) = false) :
    step st l = st := by
  simp [step, hne, hq, ho, ha, hx, hcur]

theorem step_inv (st : ParseState) (l : List Char) (h : stateInv st) :
    stateInv (step st l) := by
  obtain ⟨ha, hc⟩ := h
  by_cases h1 : pyStrip l = []
  · rw [step_blank st h1]
    exact ⟨ha, hc⟩
  cases h2 : qMatch (pyStrip l) with
  | true =>
    rw [step_question st h2]
    constructor
    · intro r hr
      rcases List.mem_append.mp hr with hr | hr
      · exact ha r hr
      · rcases hcur : st.cur with _ | c
        · rw [hcur] at hr; simp at hr
        · rw [hcur] at hr; simp at hr
          exact hr ▸ hc c hcur
    · intro c hcc
      injection hcc with hcc
      subst hcc
      intro o ho
      simp [newRecord] at ho
  | false =>
    rcases hcur : st.cur with _ | c
    · rw [step_none st hcur h1 h2]
      exact ⟨ha, hc⟩
    cases h3 : optMatch (pyStrip l) with
    | true =>
      rw [step_option st hcur h1 h2 h3]
      refine ⟨ha, ?_⟩
      intro c2 hcc
      injection hcc with hcc
      subst hcc
      intro o ho
      simp only [List.mem_append, List.mem_singleton] at ho
      rcases ho with ho | ho
      · exact hc c hcur o ho
      · exact ho ▸ h1
    | false =>
      cases h4 : ansMarker.isPrefixOf (pyStrip l) with
      | true =>
        rw [step_answer st hcur h1 h2 h3 h4]
        refine ⟨ha, ?_⟩
        intro c2 hcc
        injection hcc with hcc
        subst hcc
        intro o ho
        exact hc c hcur o ho
      | false =>
        cases h5 : expMarker.isPrefixOf (pyStrip l) with
        | true =>
          rw [step_explanation st hcur h1 h2 h3 h4 h5]
          refine ⟨ha, ?_⟩
          intro c2 hcc
          injection hcc with hcc
          subst hcc
          intro o ho
          exact hc c hcur o ho
        | false =>
          rw [step_other st hcur h1 h2 h3 h4 h5]
          exact ⟨ha, hc⟩

theorem foldl_step_inv (L : List (List Char)) (st : ParseState)
    (h : stateInv st) : stateInv (List.foldl step st L) := by
  induction L generalizing st with
  | nil => exact h
  | cons l L ih => exact ih _ (step_inv st l h)

/-- Every record produced by the parsing phase carries only non-empty
option strings. -/
theorem parseCompletion_optsNonempty (raw : List Char) :
    ∀ r ∈ parseCompletion raw, optsNonempty r := by
  have h := foldl_step_inv (splitNl (pyStrip raw)) ⟨[], none⟩
    ⟨by simp, by simp⟩
  intro r hr
  unfold parseCompletion finalize at hr
  rcases List.mem_append.mp hr with h1 | h2
  · exact h.1 r h1
  · rcases hcur : (List.foldl step ⟨[], none⟩ (splitNl (pyStrip raw))).cur
      with _ | c
    · rw [hcur] at h2; simp at h2
    · rw [hcur] at h2; simp at h2
      exact h2 ▸ h.2 c hcur

/-- Unpacking a successful persistence. -/
theorem persistRecord_eq_some {r : QRecord} {q : Question}
    (h : persistRecord r = some q) :
    validQ r = true ∧
    r.options = [q.option_a, q.option_b, q.option_c, q.option_d] ∧
    q.question_text = r.question_text ∧
    q.correct_answer = r.correct_answer ∧
    q.explanation = r.explanation := by
  unfold persistRecord at h
  split at h
  · next hv =>
    split at h
    · next a b c d hopt =>
      injection h with h
      subst h
      exact ⟨hv, hopt, rfl, rfl, rfl⟩
    · exact absurd h (by simp)
  · exact absurd h (by simp)

/-- An invalid candidate is never persisted. -/
theorem persistRecord_invalid {r : QRecord} (h : validQ r = false) :
    persistRecord r = none := by
  simp [persistRecord, h]

/-- A list whose `isEmpty` test is `false` is not nil. -/
theorem ne_nil_of_isEmpty_false {α : Type} {l : List α}
    (h : l.isEmpty = false) : l ≠ [] := by
  cases l
  · simp at h
  · simp

/-- The components of a passed validation. -/
theorem validQ_components {r : QRecord} (h : validQ r = true) :
    r.options.length = 4 ∧ r.question_text ≠ [] ∧
    r.correct_answer ≠ [] ∧ r.explanation ≠ [] := by
  simp only [validQ, Bool.and_eq_true, beq_iff_eq, Bool.not_eq_true'] at h
  obtain ⟨⟨⟨h1, h2⟩, h3⟩, h4⟩ := h
  exact ⟨h1, ne_nil_of_isEmpty_false h2, ne_nil_of_isEmpty_false h3,
    ne_nil_of_isEmpty_false h4⟩

/-! ### Claim C2 -/

/-- C2 (amended): the stored correct answer of every persisted question is
non-empty; the pipeline performs no check that it equals one of the four
stored option strings. -/
theorem c2_correct_answer_nonempty (numQ timeLim : Nat) (raw : List Char)
    (q : Question) (hq : q ∈ (generate_quiz numQ timeLim raw).questions) :
    q.correct_answer ≠ [] := by
  have hq2 : q ∈ (parseCompletion raw).filterMap persistRecord := hq
  obtain ⟨r, hr, hpr⟩ := List.mem_filterMap.mp hq2
  obtain ⟨hv, -, -, hca, -⟩ := persistRecord_eq_some hpr
  obtain ⟨-, -, hne, -⟩ := validQ_components hv
  rw [hca]
  exact hne

set_option maxRecDepth 8192 in
/-- Counterexample to C2 as stated: `c2Raw` is persisted as a question
whose stored correct answer equals none of its four stored options —
the code never compares the two. -/
theorem c2_counterexample :
    (generate_quiz 1 5 c2Raw).questions = [c2Question] ∧
    c2Question.correct_answer ≠ c2Question.option_a ∧
    c2Question.correct_answer ≠ c2Question.option_b ∧
    c2Question.correct_answer ≠ c2Question.option_c ∧
    c2Question.correct_answer ≠ c2Question.option_d := by
  exact ⟨by decide, by decide, by decide, by decide, by decide⟩

set_option maxRecDepth 8192 in
/-- Witness for C2 at a concrete persisted question. -/
theorem c2_witness :
    c2Question ∈ (generate_quiz 1 5 c2Raw).questions ∧
    c2Question.correct_answer ≠ [] :=
  ⟨by decide, c2_correct_answer_nonempty 1 5 c2Raw c2Question (by decide)⟩

/-! ### Claim C3 -/

/-- C3: every persisted question has non-empty question text, all four
options non-empty, non-empty correct answer and non-empty explanation;
it always comes from a parsed candidate with exactly four collected
option lines; and every parsed candidate failing validation is never
persisted. -/
theorem c3_persist_validation (numQ timeLim : Nat) (raw : List Char) :
    (∀ q ∈ (generate_quiz numQ timeLim raw).questions,
       q.question_text ≠ [] ∧ q.option_a ≠ [] ∧ q.option_b ≠ [] ∧
       q.option_c ≠ [] ∧ q.option_d ≠ [] ∧ q.correct_answer ≠ [] ∧
       q.explanation ≠ []) ∧
    (∀ q ∈ (generate_quiz numQ timeLim raw).questions,
       ∃ r, r ∈ parseCompletion raw ∧ r.options.length = 4 ∧
         persistRecord r = some q) ∧
    (∀ r ∈ parseCompletion raw, validQ r = false →
       persistRecord r = none) := by
  refine ⟨?_, ?_, ?_⟩
  · intro q hq
    have hq2 : q ∈ (parseCompletion raw).filterMap persistRecord := hq
    obtain ⟨r, hr, hpr⟩ := List.mem_filterMap.mp hq2
    obtain ⟨hv, hopts, hqt, hca, hex⟩ := persistRecord_eq_some hpr
    obtain ⟨-, htne, hcne, hene⟩ := validQ_components hv
    have hopt := parseCompletion_optsNonempty raw r hr
    refine ⟨?_, ?_, ?_, ?_, ?_, ?_, ?_⟩
    · rw [hqt]; exact htne
    · exact hopt q.option_a (by rw [hopts]; simp)
    · exact hopt q.option_b (by rw [hopts]; simp)
    · exact hopt q.option_c (by rw [hopts]; simp)
    · exact hopt q.option_d (by rw [hopts]; simp)
    · rw [hca]; exact hcne
    · rw [hex]; exact hene
  · intro q hq
    have hq2 : q ∈ (parseCompletion raw).filterMap persistRecord := hq
    obtain ⟨r, hr, hpr⟩ := List.mem_filterMap.mp hq2
    obtain ⟨-, hopts, -, -, -⟩ := persistRecord_eq_some hpr
    exact ⟨r, hr, by simp [hopts], hpr⟩
  · intro r _ h
    exact persistRecord_invalid h

set_option maxRecDepth 8192 in
/-- Witness for C3 at a concrete persisted question. -/
theorem c3_witness :
    c3Question ∈ (generate_quiz 1 5 c3Raw).questions ∧
    (c3Question.question_text ≠ [] ∧ c3Question.option_a ≠ [] ∧
     c3Question.option_b ≠ [] ∧ c3Question.option_c ≠ [] ∧
     c3Question.option_d ≠ [] ∧ c3Question.correct_answer ≠ [] ∧
     c3Question.explanation ≠ []) :=
  ⟨by decide, (c3_persist_validation 1 5 c3Raw).1 c3Question (by decide)⟩

/-! ### Claim C5 -/

/-- C5: a parsed candidate with fewer than four collected option lines is
never persisted; when every parsed candidate fails validation the
resulting question list is empty; and the quiz row is created from the
requested parameters regardless, so the generation call succeeds. -/
theorem c5_parser_robustness (numQ timeLim : Nat) (raw : List Char) :
    (∀ r ∈ parseCompletion raw, r.options.length < 4 →
       persistRecord r = none) ∧
    ((∀ r ∈ parseCompletion raw, validQ r = false) →
       (generate_quiz numQ timeLim raw).questions = []) ∧
    (generate_quiz numQ timeLim raw).quiz = ⟨numQ, timeLim⟩ := by
  refine ⟨?_, ?_, rfl⟩
  · intro r _ hlt
    apply persistRecord_invalid
    have h4 : (r.options.length == 4) = false := by
      rw [beq_eq_false_iff_ne]
      exact Nat.ne_of_lt hlt
    simp [validQ, h4]
  · intro hall
    show (parseCompletion raw).filterMap persistRecord = []
    rw [List.filterMap_eq_nil_iff]
    intro r hr
    exact persistRecord_invalid (hall r hr)

set_option maxRecDepth 8192 in
/-- Witness for C5: a three-option block is parsed but never persisted,
and the whole generation still yields a quiz (with no questions). -/
theorem c5_witness :
    (parseCompletion c5Raw = [c5Record] ∧ c5Record.options.length < 4 ∧
      (∀ r ∈ parseCompletion c5Raw, validQ r = false)) ∧
    persistRecord c5Record = none ∧
    (generate_quiz 1 5 c5Raw).questions = [] :=
  ⟨⟨by decide, by decide, by decide⟩,
   (c5_parser_robustness 1 5 c5Raw).1 c5Record (by decide) (by decide),
   (c5_parser_robustness 1 5 c5Raw).2.1 (by decide)⟩

/-! ### Grading lemmas -/

/-- Characterization of the grading fold: starting from any state, it
adds one point per correctly answered question, accumulates the same
count of `score_per_question` into the percentage, and appends one
breakdown entry per question in order. -/
theorem gradeStep_foldl (spq : Rat) (ua : UserAnswers)
    (qs : List StoredQuestion) (s0 : Nat) (p0 : Rat)
    (es : List BreakdownEntry) :
    qs.foldl (gradeStep spq ua) (s0, p0, es) =
      (s0 + (qs.filter (answeredCorrectly ua)).length,
       p0 + (qs.filter (answeredCorrectly ua)).length * spq,
       es ++ qs.map (mkEntry ua)) := by
  induction qs generalizing s0 p0 es with
  | nil => simp
  | cons sq qs ih =>
    have he : (mkEntry ua sq).is_correct = answeredCorrectly ua sq := rfl
    cases h : answeredCorrectly ua sq with
    | true =>
      have hstep : gradeStep spq ua (s0, p0, es) sq =
          (s0 + 1, p0 + spq, es ++ [mkEntry ua sq]) := by
        simp [gradeStep, he, h]
      rw [List.foldl_cons, hstep, ih, List.filter_cons_of_pos h]
      simp only [Prod.mk.injEq, List.length_cons]
      refine ⟨by omega, ?_, by simp⟩
      push_cast
      ring
    | false =>
      have hstep : gradeStep spq ua (s0, p0, es) sq =
          (s0, p0, es ++ [mkEntry ua sq]) := by
        simp [gradeStep, he, h]
      rw [List.foldl_cons, hstep, ih,
        List.filter_cons_of_neg (by simp [h])]
      simp

/-! ### Claim C4 -/

/-- C4: for a quiz with at least one stored question, grading counts one
point exactly for each question whose looked-up answer is string-equal
to the stored correct answer (an absent answer is never correct), the
total is the number of stored questions, the rounded percentage equals
`round2 (100 * score / total)`, and the breakdown has one entry per
question in stored order.  (Python float arithmetic is modelled by
exact rationals.) -/
theorem c4_grading (qs : List StoredQuestion) (ua : UserAnswers)
    (hne : qs ≠ []) :
    (gradeQuiz qs ua).score = (qs.filter (answeredCorrectly ua)).length ∧
    (gradeQuiz qs ua).total_questions = qs.length ∧
    (gradeQuiz qs ua).percentage_score =
      round2 (100 * ((gradeQuiz qs ua).score : Rat) / (qs.length : Rat)) ∧
    (gradeQuiz qs ua).results_breakdown = qs.map (mkEntry ua) ∧
    (∀ sq ∈ qs, ((mkEntry ua sq).is_correct = true ↔
       ua (natKey sq.id) = some sq.q.correct_answer)) := by
  have hq : qs.foldl (gradeStep (100 / (qs.length : Rat)) ua) (0, 0, []) =
      ((qs.filter (answeredCorrectly ua)).length,
       ((qs.filter (answeredCorrectly ua)).length : Rat) *
         (100 / (qs.length : Rat)),
       qs.map (mkEntry ua)) := by
    rw [gradeStep_foldl]
    simp
  have hscore : (gradeQuiz qs ua).score =
      (qs.filter (answeredCorrectly ua)).length := by
    show (qs.foldl (gradeStep (100 / (qs.length : Rat)) ua) (0, 0, [])).1 = _
    rw [hq]
  refine ⟨hscore, rfl, ?_, ?_, ?_⟩
  · rw [hscore]
    show round2 ((qs.foldl (gradeStep (100 / (qs.length : Rat)) ua)
      (0, 0, [])).2.1) = _
    rw [hq]
    show round2 (((qs.filter (answeredCorrectly ua)).length : Rat) *
      (100 / (qs.length : Rat))) = _
    congr 1
    ring
  · show (qs.foldl (gradeStep (100 / (qs.length : Rat)) ua) (0, 0, [])).2.2 =
      _
    rw [hq]
  · intro sq _
    simp [mkEntry]

/-- Witness for C4: the four-question quiz with three matching answers;
three stored questions are answered correctly, the fourth lookup is
absent. -/
theorem c4_witness :
    c4Questions ≠ [] ∧
    (c4Questions.filter (answeredCorrectly c4Answers)).length = 3 ∧
    c4Questions.length = 4 ∧
    c4Answers (natKey 4) = none ∧
    ((gradeQuiz c4Questions c4Answers).score =
       (c4Questions.filter (answeredCorrectly c4Answers)).length ∧
     (gradeQuiz c4Questions c4Answers).total_questions =
       c4Questions.length ∧
     (gradeQuiz c4Questions c4Answers).percentage_score =
       round2 (100 * ((gradeQuiz c4Questions c4Answers).score : Rat) /
         (c4Questions.length : Rat)) ∧
     (gradeQuiz c4Questions c4Answers).results_breakdown =
       c4Questions.map (mkEntry c4Answers) ∧
     (∀ sq ∈ c4Questions, ((mkEntry c4Answers sq).is_correct = true ↔
        c4Answers (natKey sq.id) = some sq.q.correct_answer))) :=
  ⟨by decide, by decide, by decide, by decide,
   c4_grading c4Questions c4Answers (by decide)⟩

/-! ### Claim C6 -/

/-- C6: submitting answers for an existing quiz with zero stored
questions returns status 200 with score 0, total 0 and percentage 0
(the early return fires before `100 / total` is ever formed). -/
theorem c6_zero_questions (store : Nat → Option (List StoredQuestion))
    (sess : Session) (quizId : Nat) (ua : UserAnswers)
    (h : store quizId = some []) :
    (submit_quiz store sess quizId ua).status = 200 ∧
    (submit_quiz store sess quizId ua).body =
      JVal.obj [("score".data, .num 0), ("total_questions".data, .num 0),
                ("percentage_score".data, .num 0)] := by
  unfold submit_quiz
  rw [h]
  exact ⟨rfl, rfl⟩

/-- Witness for C6 at a concrete store. -/
theorem c6_witness :
    c6Store 7 = some [] ∧
    ((submit_quiz c6Store [] 7 c10Answers).status = 200 ∧
     (submit_quiz c6Store [] 7 c10Answers).body =
       JVal.obj [("score".data, .num 0), ("total_questions".data, .num 0),
                 ("percentage_score".data, .num 0)]) :=
  ⟨by decide, c6_zero_questions c6Store [] 7 c10Answers (by decide)⟩

/-! ### Claim C7 -/

/-- C7 (amended): for an existing quiz with at least one question the
successful response carries the five fields `quiz_id`, `score`,
`total_questions`, `percentage_score`, `results_breakdown`; for an
existing quiz with zero questions the successful response carries only
`score`, `total_questions` and `percentage_score`. -/
theorem c7_response_fields (store : Nat → Option (List StoredQuestion))
    (sess : Session) (quizId : Nat) (ua : UserAnswers)
    (qs : List StoredQuestion) (h : store quizId = some qs) :
    (qs ≠ [] → objKeys (submit_quiz store sess quizId ua).body =
      ["quiz_id".data, "score".data, "total_questions".data,
       "percentage_score".data, "results_breakdown".data]) ∧
    (qs = [] → objKeys (submit_quiz store sess quizId ua).body =
      ["score".data, "total_questions".data, "percentage_score".data]) := by
  simp only [submit_quiz, h]
  constructor
  · intro hne
    rw [if_neg (by simpa [List.length_eq_zero] using hne)]
    rfl
  · intro he
    subst he
    rfl

/-- Counterexample to C7 as stated: for an existing quiz with zero
questions the 200 response misses `quiz_id` and `results_breakdown`. -/
theorem c7_counterexample :
    (submit_quiz c7Store [] 1 c10Answers).status = 200 ∧
    objKeys (submit_quiz c7Store [] 1 c10Answers).body =
      ["score".data, "total_questions".data, "percentage_score".data] ∧
    "quiz_id".data ∉ objKeys (submit_quiz c7Store [] 1 c10Answers).body ∧
    "results_breakdown".data ∉
      objKeys (submit_quiz c7Store [] 1 c10Answers).body := by
  exact ⟨rfl, rfl, by decide, by decide⟩

/-- Witness for C7 on a one-question quiz: all five fields are present. -/
theorem c7_witness :
    c7QStore 2 = some [c7Q] ∧ [c7Q] ≠ [] ∧
    objKeys (submit_quiz c7QStore [] 2 c10Answers).body =
      ["quiz_id".data, "score".data, "total_questions".data,
       "percentage_score".data, "results_breakdown".data] :=
  ⟨by decide, by decide,
   (c7_response_fields c7QStore [] 2 c10Answers [c7Q] (by decide)).1
     (by decide)⟩

/-! ### Claim C10 -/

/-- C10: the handler records the submitted answers in the session before
the existence check, so on the 404 path the recorded-answers entry for
that quiz id is present (and retrievable) in the outgoing session. -/
theorem c10_session_recorded_on_404
    (store : Nat → Option (List StoredQuestion)) (sess : Session)
    (quizId : Nat) (ua : UserAnswers) (h : store quizId = none) :
    (submit_quiz store sess quizId ua).status = 404 ∧
    sessionLookup (submit_quiz store sess quizId ua).sessionOut
      (answersKey quizId) = some ua := by
  unfold submit_quiz
  rw [h]
  exact ⟨rfl, by simp [sessionSet, sessionLookup]⟩

/-- Witness for C10 with an empty store. -/
theorem c10_witness :
    c10Store 3 = none ∧
    ((submit_quiz c10Store [] 3 c10Answers).status = 404 ∧
     sessionLookup (submit_quiz c10Store [] 3 c10Answers).sessionOut
       (answersKey 3) = some c10Answers) :=
  ⟨rfl, c10_session_recorded_on_404 c10Store [] 3 c10Answers rfl⟩

/-! ### Claim C8 -/

/-- C8: when the lower-cased declared extension is `txt` or `md` the
reader returns the file's literal text; when it is `docx` it returns
the concatenation of the paragraph texts, each followed by one newline;
for any other extension it returns empty content without failing. -/
theorem c8_read_file_content (fs : FileSys) (path e : List Char)
    (h : afterLastDot path = some e) :
    ((pyLower e = "txt".data ∨ pyLower e = "md".data) →
       read_file_content fs path = some (fs.textContent path)) ∧
    (pyLower e = "docx".data →
       read_file_content fs path =
         some ((fs.paragraphs path).flatMap (fun p => p ++ ['\n']))) ∧
    ((pyLower e ≠ "txt".data ∧ pyLower e ≠ "md".data ∧
        pyLower e ≠ "docx".data) →
       read_file_content fs path = some []) := by
  simp only [read_file_content, h]
  refine ⟨?_, ?_, ?_⟩
  · intro hx
    rw [if_pos hx]
  · intro hx
    have h1 : ¬(pyLower e = "txt".data ∨ pyLower e = "md".data) := by
      rw [hx]
      decide
    rw [if_neg h1, if_pos hx]
  · rintro ⟨h1, h2, h3⟩
    rw [if_neg (by tauto), if_neg h3]

/-- Witness for C8: a text path, a rich-text path and an image path
against a concrete file system. -/
theorem c8_witness :
    afterLastDot "notes.txt".data = some "txt".data ∧
    read_file_content c8Fs "notes.txt".data =
      some (c8Fs.textContent "notes.txt".data) ∧
    read_file_content c8Fs "doc.docx".data =
      some ((c8Fs.paragraphs "doc.docx".data).flatMap (fun p => p ++ ['\n'])) ∧
    read_file_content c8Fs "img.png".data = some [] :=
  ⟨by decide,
   (c8_read_file_content c8Fs "notes.txt".data "txt".data (by decide)).1
     (Or.inl (by decide)),
   (c8_read_file_content c8Fs "doc.docx".data "docx".data (by decide)).2.1
     (by decide),
   (c8_read_file_content c8Fs "img.png".data "png".data (by decide)).2.2
     (by decide)⟩

/-! ### Claim C9 -/

/-- The extension extraction fails exactly on dot-free paths. -/
theorem afterLastDot_eq_none_iff (path : List Char) :
    afterLastDot path = none ↔ '.' ∉ path := by
  induction path with
  | nil => simp [afterLastDot]
  | cons c rest ih =>
    simp only [afterLastDot]
    cases hd : afterLastDot rest with
    | some e =>
      have hmem : '.' ∈ rest := by
        by_contra hnm
        rw [ih.mpr hnm] at hd
        exact Option.noConfusion hd
      simp [hmem]
    | none =>
      by_cases hc : c = '.'
      · subst hc
        simp
      · simp [hc, List.mem_cons, ih.mp hd, Ne.symm hc]

/-- C9: `read_file_content` raises (models as `none`) exactly when the
path has no dot; any path containing a dot yields some content. -/
theorem c9_requires_dot (fs : FileSys) (path : List Char) :
    ('.' ∉ path → read_file_content fs path = none) ∧
    ('.' ∈ path → ∃ content, read_file_content fs path = some content) := by
  constructor
  · intro h
    unfold read_file_content
    rw [(afterLastDot_eq_none_iff path).mpr h]
  · intro h
    unfold read_file_content
    cases hd : afterLastDot path with
    | none =>
      rw [afterLastDot_eq_none_iff] at hd
      exact absurd h hd
    | some e =>
      simp only [hd]
      by_cases h1 : pyLower e = "txt".data ∨ pyLower e = "md".data
      · exact ⟨_, by rw [if_pos h1]⟩
      · by_cases h2 : pyLower e = "docx".data
        · exact ⟨_, by rw [if_neg h1, if_pos h2]⟩
        · exact ⟨_, by rw [if_neg h1, if_neg h2]⟩

/-- Witness for C9: a dot-free path fails, a dotted path succeeds. -/
theorem c9_witness :
    ('.' ∉ "README".data ∧
      read_file_content c9Fs "README".data = none) ∧
    ('.' ∈ "a.bin".data ∧
      ∃ content, read_file_content c9Fs "a.bin".data = some content) :=
  ⟨⟨by decide, (c9_requires_dot c9Fs "README".data).1 (by decide)⟩,
   ⟨by decide, (c9_requires_dot c9Fs "a.bin".data).2 (by decide)⟩⟩

end Trivia
